import Mathlib

/-!
Verification development for the limb-rigging tool
(`src/limbRiggingTool.py`).  The rig builder `RigTheLimb` is embedded as a
pure generator of adapter commands (`Cmd`): every side-effecting call on the
Maya scene (`mc.circle`, `mc.group`, `mc.parent`, `mel curve`, `mc.ikHandle`,
`mc.spaceLocator`, `mc.move`, `mc.addAttr`, `mc.expression`, `mc.setAttr`,
constraints) becomes one command in the emitted trace, in source order.
Scene queries (`mc.xform`, `mc.getAttr` of the pole vector,
`mc.listConnections`) are supplied through a `BuildEnv` record, so the
generator is a pure function of the selection, the controller size and the
queried values.  A small scene semantics (`applyCmd` / `runScene`) interprets
the transform-hierarchy commands to settle claims about parenting, and a
fallible interpreter (`runBuild`) models an adapter call failing mid-build.
-/

namespace LimbRig

/-- Vector in 3D mirroring `maya.OpenMaya.MVector`, with real components. -/
@[ext]
structure MVector where
  x : ℝ
  y : ℝ
  z : ℝ

instance : Add MVector := ⟨fun a b => ⟨a.x + b.x, a.y + b.y, a.z + b.z⟩⟩

instance : Sub MVector := ⟨fun a b => ⟨a.x - b.x, a.y - b.y, a.z - b.z⟩⟩

instance : HMul MVector ℝ MVector := ⟨fun v c => ⟨v.x * c, v.y * c, v.z * c⟩⟩

noncomputable instance : HDiv MVector ℝ MVector :=
  ⟨fun v c => ⟨v.x / c, v.y / c, v.z / c⟩⟩

/-- The zero vector. -/
def MVector.zero : MVector := ⟨0, 0, 0⟩

/-- Euclidean length, as `MVector.length()`. -/
noncomputable def MVector.length (v : MVector) : ℝ :=
  Real.sqrt (v.x ^ 2 + v.y ^ 2 + v.z ^ 2)

open Classical in
/-- Maya's `MVector.normalize()`: divide by the length; the zero vector (which has
no direction) is left unchanged. -/
noncomputable def MVector.normalize (v : MVector) : MVector :=
  if v.length = 0 then v else v / v.length

/-- Errors surfaced by the build.  `IndexError` is Python's out-of-range
list indexing; `SelectionError` is the validation error the specification
describes; `SceneGraphError` stands for any failing Maya adapter call. -/
inductive MayaError where
  | IndexError : MayaError
  | SelectionError : MayaError
  | SceneGraphError : MayaError
deriving DecidableEq

/-- The right-hand side of one `mc.expression` string: every expression the
tool writes is either the blend attribute itself or one minus it. -/
inductive BlendFormula where
  | blendVal : BlendFormula
  | oneMinusBlend : BlendFormula
deriving DecidableEq

/-- Value of an expression formula at blend value `b`. -/
def evalBlendFormula : BlendFormula → ℝ → ℝ
  | .blendVal, b => b
  | .oneMinusBlend, b => 1 - b

/-- One side-effecting Maya adapter call, in the order the source issues
them. -/
inductive Cmd where
  | circle (name : String) (radius : Nat) : Cmd
  | curveN (name : String) : Cmd
  | spaceLocator (name : String) : Cmd
  | ikHandleCmd (name startJnt endEffector solver : String) : Cmd
  | groupOne (member grpName : String) : Cmd
  | groupMany (members : List String) (grpName : String) : Cmd
  | matchTransform (target src : String) : Cmd
  | orientConstraintCmd (driver driven : String) : Cmd
  | parentCmd (child newParent : String) : Cmd
  | scaleCmd (s : Nat) (target : String) : Cmd
  | makeIdentity (target : String) : Cmd
  | move (mx my mz : ℝ) (target : String) : Cmd
  | addAttrCmd (node attr : String) : Cmd
  | exprCmd (targetNode targetAttr : String) (formula : BlendFormula) : Cmd
  | poleVectorConstraintCmd (driver handle : String) : Cmd
  | setAttrCmd (node attr : String) (value : ℝ) : Cmd

/-- Name scheme `"ac_fk_" + jnt` (line 99 of the source). -/
def fkCtrlNameOf (jnt : String) : String := "ac_fk_" ++ jnt

/-- Name scheme `fkCtrlName + "_grp"` (line 100). -/
def fkCtrlGrpNameOf (jnt : String) : String := fkCtrlNameOf jnt ++ "_grp"

/-- Name scheme `"ac_ik_" + jnt`: used for the end IK control (line 109)
and for the pole-vector locator (line 138). -/
def ikCtrlNameOf (jnt : String) : String := "ac_ik_" ++ jnt

/-- Name scheme `ikCtrlName + "_grp"` (lines 113 and 141). -/
def ikCtrlGrpNameOf (jnt : String) : String := ikCtrlNameOf jnt ++ "_grp"

/-- Name scheme `"ikHandle_" + endJnt` (line 119). -/
def ikHandleNameOf (endJnt : String) : String := "ikHandle_" ++ endJnt

/-- Name scheme `"ac_ikfk_blend_" + rootJnt` (line 72). -/
def ikfkBlendCtrlNameOf (rootJnt : String) : String := "ac_ikfk_blend_" ++ rootJnt

/-- Name scheme `ikfkBlendCtrlName + "_grp"` (line 74). -/
def ikfkBlendCtrlGrpNameOf (rootJnt : String) : String :=
  ikfkBlendCtrlNameOf rootJnt ++ "_grp"

/-- Name scheme `rootJnt + "_rig_grp"` (line 94). -/
def topGrpNameOf (rootJnt : String) : String := rootJnt ++ "_rig_grp"

/-- Scene values the source reads back with queries during the build:
world positions of the root and end joints (`mc.xform`, lines 77, 122,
125), the solver-chosen pole vector of the handle (`mc.getAttr`, line 128)
and the name of the end joint's orientation constraint
(`mc.listConnections`, line 90). -/
structure BuildEnv where
  rootJntPos : MVector
  endJntPos : MVector
  poleVector : MVector
  endJntOrientConstraint : String

/-- Pole-vector locator group position, lines 122-136 of the source:
`rootJntPos + vectorToEnd/2 + poleVector.normalize()*(vectorToEnd/2).length()`. -/
noncomputable def midIkCtrlPos (rootJntPos endJntPos poleVector : MVector) : MVector :=
  let vectorToEnd := endJntPos - rootJntPos
  let LimbDirOffset := vectorToEnd / (2 : ℝ)
  let poleVectorDirOffset := poleVector.normalize * LimbDirOffset.length
  rootJntPos + LimbDirOffset + poleVectorDirOffset

/-- IK/FK blend control group position, line 79 of the source:
`rootJntPos + MVector(rootJntPos.x, 0, 0)`. -/
def ikfkBlendCtrlPos (rootJntPos : MVector) : MVector :=
  rootJntPos + ⟨rootJntPos.x, 0, 0⟩

/-- Return value of `CreateFKForJnt` plus the adapter calls it issues. -/
structure FKResult where
  fkCtrlName : String
  fkCtrlGrpName : String
  cmds : List Cmd

/-- Embeds `CreateFKForJnt` (lines 98-105): circle control, wrapping group,
match to the joint, orient-constrain the joint to the control. -/
def CreateFKForJnt (controllerSize : Nat) (jnt : String) : FKResult :=
  ⟨fkCtrlNameOf jnt, fkCtrlGrpNameOf jnt,
    [Cmd.circle (fkCtrlNameOf jnt) controllerSize,
     Cmd.groupOne (fkCtrlNameOf jnt) (fkCtrlGrpNameOf jnt),
     Cmd.matchTransform (fkCtrlGrpNameOf jnt) jnt,
     Cmd.orientConstraintCmd (fkCtrlNameOf jnt) jnt]⟩

/-- Return value of `CreateIkControl` plus the adapter calls it issues. -/
structure IkResult where
  ikEndCtrlName : String
  ikEndCtrlGrpName : String
  midIkCtrlName : String
  midIkCtrlGrpName : String
  ikHandleName : String
  cmds : List Cmd

/-- Embeds `CreateIkControl` (lines 107-150): box-shaped end control (scaled and
frozen), its group matched to the end joint, orientation constraint on the
end joint, the rotate-plane IK handle root→end, the pole-vector locator
grouped and moved to `midIkCtrlPos`, handle parented under the end control,
pole-vector constraint, and the handle's visibility set to 0. -/
noncomputable def CreateIkControl (controllerSize : Nat)
    (rootJnt midJnt endJnt : String) (env : BuildEnv) : IkResult :=
  let midIkCtrlPosV := midIkCtrlPos env.rootJntPos env.endJntPos env.poleVector
  ⟨ikCtrlNameOf endJnt, ikCtrlGrpNameOf endJnt,
   ikCtrlNameOf midJnt, ikCtrlGrpNameOf midJnt,
   ikHandleNameOf endJnt,
   [Cmd.curveN (ikCtrlNameOf endJnt),
    Cmd.scaleCmd controllerSize (ikCtrlNameOf endJnt),
    Cmd.makeIdentity (ikCtrlNameOf endJnt),
    Cmd.groupOne (ikCtrlNameOf endJnt) (ikCtrlGrpNameOf endJnt),
    Cmd.matchTransform (ikCtrlGrpNameOf endJnt) endJnt,
    Cmd.orientConstraintCmd (ikCtrlNameOf endJnt) endJnt,
    Cmd.ikHandleCmd (ikHandleNameOf endJnt) rootJnt endJnt "ikRPsolver",
    Cmd.spaceLocator (ikCtrlNameOf midJnt),
    Cmd.groupOne (ikCtrlNameOf midJnt) (ikCtrlGrpNameOf midJnt),
    Cmd.move midIkCtrlPosV.x midIkCtrlPosV.y midIkCtrlPosV.z (ikCtrlGrpNameOf midJnt),
    Cmd.parentCmd (ikHandleNameOf endJnt) (ikCtrlNameOf endJnt),
    Cmd.poleVectorConstraintCmd (ikCtrlNameOf midJnt) (ikHandleNameOf endJnt),
    Cmd.setAttrCmd (ikHandleNameOf endJnt) "v" 0]⟩

/-- The full command trace of one successful `RigTheLimb` build on the
joints `rootJnt, midJnt, endJnt` (lines 63-96 of the source), in source
order: three FK chains, FK parenting, IK construction, blend control with
its six live expressions, final top grouping. -/
noncomputable def rigCmds (controllerSize : Nat)
    (rootJnt midJnt endJnt : String) (env : BuildEnv) : List Cmd :=
  let fkRoot := CreateFKForJnt controllerSize rootJnt
  let fkMid := CreateFKForJnt controllerSize midJnt
  let fkEnd := CreateFKForJnt controllerSize endJnt
  let ik := CreateIkControl controllerSize rootJnt midJnt endJnt env
  let blendCtrl := ikfkBlendCtrlNameOf rootJnt
  let blendGrp := ikfkBlendCtrlGrpNameOf rootJnt
  let blendPos := ikfkBlendCtrlPos env.rootJntPos
  fkRoot.cmds ++ fkMid.cmds ++ fkEnd.cmds
    ++ [Cmd.parentCmd fkMid.fkCtrlGrpName fkRoot.fkCtrlName,
        Cmd.parentCmd fkEnd.fkCtrlGrpName fkMid.fkCtrlName]
    ++ ik.cmds
    ++ [Cmd.curveN blendCtrl,
        Cmd.groupOne blendCtrl blendGrp,
        Cmd.move blendPos.x blendPos.y blendPos.z blendGrp,
        Cmd.addAttrCmd blendCtrl "ikfk_blend",
        Cmd.exprCmd fkRoot.fkCtrlGrpName "v" BlendFormula.oneMinusBlend,
        Cmd.exprCmd ik.ikEndCtrlGrpName "v" BlendFormula.blendVal,
        Cmd.exprCmd ik.midIkCtrlGrpName "v" BlendFormula.blendVal,
        Cmd.exprCmd ik.ikHandleName "ikBlend" BlendFormula.blendVal,
        Cmd.exprCmd env.endJntOrientConstraint (fkEnd.fkCtrlName ++ "W0")
          BlendFormula.oneMinusBlend,
        Cmd.exprCmd env.endJntOrientConstraint (ik.ikEndCtrlName ++ "W1")
          BlendFormula.blendVal]
    ++ [Cmd.groupMany
          [fkRoot.fkCtrlGrpName, ik.ikEndCtrlGrpName, ik.midIkCtrlGrpName, blendGrp]
          (topGrpNameOf rootJnt)]

/-- Embeds the `RigTheLimb` entry (lines 56-61): the joints come from the current
selection by positional indexing `selection[0] / [1] / [2]`, which raises
Python's `IndexError` when the selection is too short; there is no other
validation.  On success the build emits `rigCmds`. -/
noncomputable def RigTheLimb (controllerSize : Nat) (selection : List String)
    (env : BuildEnv) : Except MayaError (List Cmd) :=
  match selection[0]?, selection[1]?, selection[2]? with
  | some rootJnt, some midJnt, some endJnt =>
      .ok (rigCmds controllerSize rootJnt midJnt endJnt env)
  | _, _, _ => .error .IndexError

/-- One transform node of the scene hierarchy: its name and its current
parent (`none` = world). -/
structure Node where
  name : String
  parent : Option String
deriving DecidableEq

/-- The transform hierarchy, in creation order. -/
abbrev Scene := List Node

/-- Set the parent of the node called `child`. -/
def reparent : Scene → String → Option String → Scene
  | [], _, _ => []
  | nd :: rest, child, p =>
      (if nd.name == child then (⟨nd.name, p⟩ : Node) else nd) :: reparent rest child p

/-- Effect of one adapter call on the transform hierarchy.  Node-creating
calls append a world-parented node; `mc.group` additionally reparents the
grouped member(s) under the new group (every `mc.group` in the source is
issued while the grouped nodes sit at world level, so the new group itself
is created at world level); `mc.parent` reparents.  Transform edits,
attributes, constraints and expressions do not change the hierarchy. -/
def applyCmd (s : Scene) (c : Cmd) : Scene :=
  match c with
  | .circle n _ => s ++ [⟨n, none⟩]
  | .curveN n => s ++ [⟨n, none⟩]
  | .spaceLocator n => s ++ [⟨n, none⟩]
  | .ikHandleCmd n _ _ _ => s ++ [⟨n, none⟩]
  | .groupOne m g => reparent s m (some g) ++ [⟨g, none⟩]
  | .groupMany ms g =>
      (ms.foldl (fun acc m => reparent acc m (some g)) s) ++ [⟨g, none⟩]
  | .parentCmd c p => reparent s c (some p)
  | _ => s

/-- Scene produced by a command trace, starting from an empty scene. -/
def runScene (cmds : List Cmd) : Scene := cmds.foldl applyCmd []

/-- Parent of the first node with the given name (nodes the build
created have unique names when `NamesOk` holds). -/
def parentOf : Scene → String → Option String
  | [], _ => none
  | nd :: rest, n => if nd.name == n then nd.parent else parentOf rest n

/-- Names of the direct children of the group `g`, in creation order. -/
def childrenNames : Scene → String → List String
  | [], _ => []
  | nd :: rest, g =>
      if nd.parent == some g then nd.name :: childrenNames rest g
      else childrenNames rest g

/-- Whole-run result: reading the selection happens before any adapter
call, so a short selection yields an empty scene and an `IndexError`. -/
noncomputable def RunRig (controllerSize : Nat) (selection : List String)
    (env : BuildEnv) : Scene × Option MayaError :=
  match RigTheLimb controllerSize selection env with
  | .error e => (([] : Scene), some e)
  | .ok cmds => (runScene cmds, none)

/-- Fallible interpreter: `oracle i` tells whether the `i`-th adapter call
of the trace fails, and with which error.  The build performs calls in
order and stops at the first failure, leaving the scene as it was before
the failing call; no error is caught or translated. -/
def runBuild (oracle : Nat → Option MayaError) :
    Scene → Nat → List Cmd → Scene × Option MayaError
  | s, _, [] => (s, none)
  | s, i, c :: rest =>
      match oracle i with
      | some e => (s, some e)
      | none => runBuild oracle (applyCmd s c) (i + 1) rest

/-- All node names one successful build creates, in creation order. -/
def rigNodeNames (rootJnt midJnt endJnt : String) : List String :=
  [fkCtrlNameOf rootJnt, fkCtrlGrpNameOf rootJnt,
   fkCtrlNameOf midJnt, fkCtrlGrpNameOf midJnt,
   fkCtrlNameOf endJnt, fkCtrlGrpNameOf endJnt,
   ikCtrlNameOf endJnt, ikCtrlGrpNameOf endJnt,
   ikHandleNameOf endJnt,
   ikCtrlNameOf midJnt, ikCtrlGrpNameOf midJnt,
   ikfkBlendCtrlNameOf rootJnt, ikfkBlendCtrlGrpNameOf rootJnt,
   topGrpNameOf rootJnt]

/-- Distinctness of the generated node names (both orientations, so the
facts are directly usable on either side of a comparison).  A successful
Maya build presupposes this: a name collision would make `mc.group` or the
creation calls auto-rename or fail, changing every later lookup. -/
def NamesOk (rootJnt midJnt endJnt : String) : Prop :=
  (rigNodeNames rootJnt midJnt endJnt).Pairwise (fun a b => a ≠ b ∧ b ≠ a)

instance (r m e : String) : Decidable (NamesOk r m e) := by
  unfold NamesOk; infer_instance

/-- A sample environment used to instantiate universally quantified
theorems at concrete inputs. -/
noncomputable def sampleEnv : BuildEnv :=
  ⟨⟨0, 0, 0⟩, ⟨10, 0, 0⟩, ⟨0, 0, -1⟩, "wrist_orientConstraint1"⟩

/-- The live expressions of a trace: (target node, target attribute,
formula), in the order they are bound. -/
def exprCmds (cmds : List Cmd) : List (String × String × BlendFormula) :=
  cmds.filterMap fun c =>
    match c with
    | .exprCmd n a f => some (n, a, f)
    | _ => none

/-- Is this command an `mc.ikHandle` creation? -/
def isIkHandleCmd : Cmd → Bool
  | .ikHandleCmd _ _ _ _ => true
  | _ => false

/-- Is this command an `mc.poleVectorConstraint` creation? -/
def isPoleVectorConstraintCmd : Cmd → Bool
  | .poleVectorConstraintCmd _ _ => true
  | _ => false

/-- Is this command an `mc.setAttr` call? -/
def isSetAttrCmd : Cmd → Bool
  | .setAttrCmd _ _ _ => true
  | _ => false

@[simp] theorem MVector.add_x (a b : MVector) : (a + b).x = a.x + b.x := rfl

@[simp] theorem MVector.add_y (a b : MVector) : (a + b).y = a.y + b.y := rfl

@[simp] theorem MVector.add_z (a b : MVector) : (a + b).z = a.z + b.z := rfl

@[simp] theorem MVector.sub_x (a b : MVector) : (a - b).x = a.x - b.x := rfl

@[simp] theorem MVector.sub_y (a b : MVector) : (a - b).y = a.y - b.y := rfl

@[simp] theorem MVector.sub_z (a b : MVector) : (a - b).z = a.z - b.z := rfl

@[simp] theorem MVector.mul_x (v : MVector) (c : ℝ) : (v * c).x = v.x * c := rfl

@[simp] theorem MVector.mul_y (v : MVector) (c : ℝ) : (v * c).y = v.y * c := rfl

@[simp] theorem MVector.mul_z (v : MVector) (c : ℝ) : (v * c).z = v.z * c := rfl

@[simp] theorem MVector.div_x (v : MVector) (c : ℝ) : (v / c).x = v.x / c := rfl

@[simp] theorem MVector.div_y (v : MVector) (c : ℝ) : (v / c).y = v.y / c := rfl

@[simp] theorem MVector.div_z (v : MVector) (c : ℝ) : (v / c).z = v.z / c := rfl

theorem MVector.length_nonneg (v : MVector) : 0 ≤ v.length :=
  Real.sqrt_nonneg _

theorem MVector.length_eq_zero_iff (v : MVector) :
    v.length = 0 ↔ v = MVector.zero := by
  unfold MVector.length
  rw [Real.sqrt_eq_zero (by positivity)]
  constructor
  · intro h
    have hx : v.x = 0 := by nlinarith [sq_nonneg v.y, sq_nonneg v.z]
    have hy : v.y = 0 := by nlinarith [sq_nonneg v.x, sq_nonneg v.z]
    have hz : v.z = 0 := by nlinarith [sq_nonneg v.x, sq_nonneg v.y]
    ext <;> simp [MVector.zero, hx, hy, hz]
  · intro h
    rw [h]
    simp [MVector.zero]

theorem MVector.length_pos_of_ne_zero (v : MVector) (h : v ≠ MVector.zero) :
    0 < v.length :=
  lt_of_le_of_ne v.length_nonneg
    (fun he => h (v.length_eq_zero_iff.mp he.symm))

theorem MVector.length_mul (v : MVector) (c : ℝ) :
    (v * c).length = |c| * v.length := by
  unfold MVector.length
  simp only [MVector.mul_x, MVector.mul_y, MVector.mul_z]
  rw [show (v.x * c) ^ 2 + (v.y * c) ^ 2 + (v.z * c) ^ 2
        = c ^ 2 * (v.x ^ 2 + v.y ^ 2 + v.z ^ 2) by ring]
  rw [Real.sqrt_mul (sq_nonneg c), Real.sqrt_sq_eq_abs]

theorem MVector.length_div_two (v : MVector) :
    (v / (2 : ℝ)).length = 1 / 2 * v.length := by
  have hdiv : v / (2 : ℝ) = v * (1 / 2 : ℝ) := by
    ext <;> simp <;> ring
  rw [hdiv, MVector.length_mul]
  norm_num

theorem MVector.length_normalize (v : MVector) (h : v ≠ MVector.zero) :
    v.normalize.length = 1 := by
  have hl : 0 < v.length := v.length_pos_of_ne_zero h
  have hne : v.length ≠ 0 := ne_of_gt hl
  unfold MVector.normalize
  rw [if_neg hne]
  have hdiv : v / v.length = v * (v.length)⁻¹ := by
    ext <;> simp [div_eq_mul_inv]
  rw [hdiv, MVector.length_mul, abs_inv, abs_of_pos hl]
  field_simp

/-- C1: the pole-vector locator group is moved to exactly
`root + 0.5*(end − root) + normalize(poleVector) * 0.5*|end − root|`, and
consequently its distance from the limb midpoint equals
`0.5 * |end − root|`, whatever the limb's orientation (the read-back pole
vector having a direction, i.e. being nonzero). -/
theorem pole_vector_locator_placement (controllerSize : Nat)
    (rootJnt midJnt endJnt : String) (env : BuildEnv)
    (h : env.poleVector ≠ MVector.zero) :
    Cmd.move (midIkCtrlPos env.rootJntPos env.endJntPos env.poleVector).x
        (midIkCtrlPos env.rootJntPos env.endJntPos env.poleVector).y
        (midIkCtrlPos env.rootJntPos env.endJntPos env.poleVector).z
        (ikCtrlGrpNameOf midJnt)
      ∈ (CreateIkControl controllerSize rootJnt midJnt endJnt env).cmds
    ∧ midIkCtrlPos env.rootJntPos env.endJntPos env.poleVector
      = env.rootJntPos + (env.endJntPos - env.rootJntPos) * (1 / 2 : ℝ)
        + env.poleVector.normalize
            * (1 / 2 * (env.endJntPos - env.rootJntPos).length)
    ∧ (midIkCtrlPos env.rootJntPos env.endJntPos env.poleVector
        - (env.rootJntPos + (env.endJntPos - env.rootJntPos) * (1 / 2 : ℝ))).length
      = 1 / 2 * (env.endJntPos - env.rootJntPos).length := by
  have hunfold : midIkCtrlPos env.rootJntPos env.endJntPos env.poleVector
      = env.rootJntPos + (env.endJntPos - env.rootJntPos) / (2 : ℝ)
        + env.poleVector.normalize
            * ((env.endJntPos - env.rootJntPos) / (2 : ℝ)).length := rfl
  refine ⟨by simp [CreateIkControl], ?_, ?_⟩
  · rw [hunfold, MVector.length_div_two]
    ext <;> simp <;> ring
  · have hd : midIkCtrlPos env.rootJntPos env.endJntPos env.poleVector
        - (env.rootJntPos + (env.endJntPos - env.rootJntPos) * (1 / 2 : ℝ))
        = env.poleVector.normalize
            * (1 / 2 * (env.endJntPos - env.rootJntPos).length) := by
      rw [hunfold, MVector.length_div_two]
      ext <;> simp <;> ring
    have hnn : (0 : ℝ) ≤ 1 / 2 * (env.endJntPos - env.rootJntPos).length :=
      mul_nonneg (by norm_num) ((env.endJntPos - env.rootJntPos).length_nonneg)
    rw [hd, MVector.length_mul, MVector.length_normalize env.poleVector h,
      mul_one, abs_of_nonneg hnn]

/-- Witness for `pole_vector_locator_placement` with the limb along the x
axis and the pole vector along negative z. -/
theorem pole_vector_locator_witness :
    sampleEnv.poleVector ≠ MVector.zero
    ∧ (Cmd.move (midIkCtrlPos sampleEnv.rootJntPos sampleEnv.endJntPos
            sampleEnv.poleVector).x
          (midIkCtrlPos sampleEnv.rootJntPos sampleEnv.endJntPos
            sampleEnv.poleVector).y
          (midIkCtrlPos sampleEnv.rootJntPos sampleEnv.endJntPos
            sampleEnv.poleVector).z
          (ikCtrlGrpNameOf "elbow")
        ∈ (CreateIkControl 15 "shoulder" "elbow" "wrist" sampleEnv).cmds
      ∧ midIkCtrlPos sampleEnv.rootJntPos sampleEnv.endJntPos sampleEnv.poleVector
        = sampleEnv.rootJntPos
          + (sampleEnv.endJntPos - sampleEnv.rootJntPos) * (1 / 2 : ℝ)
          + sampleEnv.poleVector.normalize
              * (1 / 2 * (sampleEnv.endJntPos - sampleEnv.rootJntPos).length)
      ∧ (midIkCtrlPos sampleEnv.rootJntPos sampleEnv.endJntPos sampleEnv.poleVector
          - (sampleEnv.rootJntPos
              + (sampleEnv.endJntPos - sampleEnv.rootJntPos) * (1 / 2 : ℝ))).length
        = 1 / 2 * (sampleEnv.endJntPos - sampleEnv.rootJntPos).length) := by
  have hpv : sampleEnv.poleVector ≠ MVector.zero := by
    simp only [sampleEnv, MVector.zero, ne_eq, MVector.mk.injEq]
    norm_num
  exact ⟨hpv, pole_vector_locator_placement 15 "shoulder" "elbow" "wrist" sampleEnv hpv⟩

/-- The fallible interpreter stops at the first failing call: it returns
that call's error unchanged, and the scene it returns is exactly the scene
the preceding calls built. -/
theorem runBuild_stops_at_failure (oracle : Nat → Option MayaError) :
    ∀ (cmds : List Cmd) (s : Scene) (i k : Nat) (e : MayaError),
      (∀ j, j < k → oracle (i + j) = none) → oracle (i + k) = some e →
      k < cmds.length →
      runBuild oracle s i cmds = ((cmds.take k).foldl applyCmd s, some e) := by
  intro cmds
  induction cmds with
  | nil =>
      intro s i k e _ _ hk
      simp at hk
  | cons c rest ih =>
      intro s i k e hpre hfail hk
      cases k with
      | zero =>
          rw [Nat.add_zero] at hfail
          simp [runBuild, hfail]
      | succ k' =>
          have h0 : oracle i = none := by
            have := hpre 0 (Nat.succ_pos k')
            simpa using this
          have hpre' : ∀ j, j < k' → oracle (i + 1 + j) = none := by
            intro j hj
            have := hpre (j + 1) (by omega)
            rw [show i + 1 + j = i + (j + 1) by omega]
            exact this
          have hfail' : oracle (i + 1 + k') = some e := by
            rw [show i + 1 + k' = i + (k' + 1) by omega]
            exact hfail
          have hk' : k' < rest.length := by
            simpa using hk
          simp only [runBuild, h0]
          rw [ih (applyCmd s c) (i + 1) k' e hpre' hfail' hk']
          simp

/-- C8: during a build, the first failing adapter call aborts the
remaining build steps, its error reaches the caller unchanged, and the
scene keeps exactly the nodes the calls before the failure created — no
rollback, no error translation. -/
theorem failing_call_aborts_build (controllerSize : Nat)
    (selection : List String) (env : BuildEnv) (cmds : List Cmd)
    (oracle : Nat → Option MayaError) (k : Nat) (e : MayaError)
    (hok : RigTheLimb controllerSize selection env = Except.ok cmds)
    (hpre : ∀ j, j < k → oracle j = none)
    (hfail : oracle k = some e)
    (hk : k < cmds.length) :
    runBuild oracle [] 0 cmds = (runScene (cmds.take k), some e) := by
  have hmain := runBuild_stops_at_failure oracle cmds [] 0 k e
    (by intro j hj; simpa using hpre j hj) (by simpa using hfail) hk
  simpa [runScene] using hmain

/-- Witness for `failing_call_aborts_build`: the third adapter call of a
concrete build fails. -/
theorem failing_call_witness :
    RigTheLimb 15 ["shoulder", "elbow", "wrist"] sampleEnv
      = Except.ok (rigCmds 15 "shoulder" "elbow" "wrist" sampleEnv)
    ∧ (∀ j, j < 2 →
        (if j = 2 then some MayaError.SceneGraphError else none) = none)
    ∧ (if 2 = 2 then some MayaError.SceneGraphError else none)
        = some MayaError.SceneGraphError
    ∧ 2 < (rigCmds 15 "shoulder" "elbow" "wrist" sampleEnv).length
    ∧ runBuild (fun j => if j = 2 then some MayaError.SceneGraphError else none)
        [] 0 (rigCmds 15 "shoulder" "elbow" "wrist" sampleEnv)
      = (runScene ((rigCmds 15 "shoulder" "elbow" "wrist" sampleEnv).take 2),
         some MayaError.SceneGraphError) := by
  have hlen : (rigCmds 15 "shoulder" "elbow" "wrist" sampleEnv).length = 38 := rfl
  refine ⟨rfl, by decide, rfl, by omega, ?_⟩
  exact failing_call_aborts_build 15 ["shoulder", "elbow", "wrist"] sampleEnv
    (rigCmds 15 "shoulder" "elbow" "wrist" sampleEnv)
    (fun j => if j = 2 then some MayaError.SceneGraphError else none)
    2 MayaError.SceneGraphError rfl (by decide) rfl (by omega)

set_option maxHeartbeats 1000000 in
/-- The final transform hierarchy of one successful build, computed from
the command trace: each FK control sits in its group, the mid/end FK
groups hang under the preceding FK control, the IK handle hangs under the
end IK control, and the four branch groups hang under the top group. -/
theorem runScene_rigCmds (controllerSize : Nat) (rootJnt midJnt endJnt : String)
    (env : BuildEnv) (hnd : NamesOk rootJnt midJnt endJnt) :
    runScene (rigCmds controllerSize rootJnt midJnt endJnt env)
      = [⟨fkCtrlNameOf rootJnt, some (fkCtrlGrpNameOf rootJnt)⟩,
         ⟨fkCtrlGrpNameOf rootJnt, some (topGrpNameOf rootJnt)⟩,
         ⟨fkCtrlNameOf midJnt, some (fkCtrlGrpNameOf midJnt)⟩,
         ⟨fkCtrlGrpNameOf midJnt, some (fkCtrlNameOf rootJnt)⟩,
         ⟨fkCtrlNameOf endJnt, some (fkCtrlGrpNameOf endJnt)⟩,
         ⟨fkCtrlGrpNameOf endJnt, some (fkCtrlNameOf midJnt)⟩,
         ⟨ikCtrlNameOf endJnt, some (ikCtrlGrpNameOf endJnt)⟩,
         ⟨ikCtrlGrpNameOf endJnt, some (topGrpNameOf rootJnt)⟩,
         ⟨ikHandleNameOf endJnt, some (ikCtrlNameOf endJnt)⟩,
         ⟨ikCtrlNameOf midJnt, some (ikCtrlGrpNameOf midJnt)⟩,
         ⟨ikCtrlGrpNameOf midJnt, some (topGrpNameOf rootJnt)⟩,
         ⟨ikfkBlendCtrlNameOf rootJnt, some (ikfkBlendCtrlGrpNameOf rootJnt)⟩,
         ⟨ikfkBlendCtrlGrpNameOf rootJnt, some (topGrpNameOf rootJnt)⟩,
         ⟨topGrpNameOf rootJnt, none⟩] := by
  unfold NamesOk rigNodeNames at hnd
  simp only [List.pairwise_cons, List.forall_mem_cons] at hnd
  simp only [runScene, rigCmds, CreateFKForJnt, CreateIkControl,
    List.foldl_append, List.foldl_cons, List.foldl_nil, applyCmd, reparent,
    List.cons_append, List.nil_append, List.append_nil,
    beq_iff_eq, ne_eq, hnd, if_false, if_true, ite_true, ite_false,
    eq_self_iff_true, and_self]

/-- C5: after every successful build (generated node names being
distinct), the mid FK group's parent is the root FK control and the end FK
group's parent is the mid FK control, mirroring the skeletal
root-mid-end order. -/
theorem fk_parenting_invariant (controllerSize : Nat)
    (rootJnt midJnt endJnt : String) (env : BuildEnv)
    (hnd : NamesOk rootJnt midJnt endJnt) :
    parentOf (runScene (rigCmds controllerSize rootJnt midJnt endJnt env))
        (fkCtrlGrpNameOf midJnt) = some (fkCtrlNameOf rootJnt)
    ∧ parentOf (runScene (rigCmds controllerSize rootJnt midJnt endJnt env))
        (fkCtrlGrpNameOf endJnt) = some (fkCtrlNameOf midJnt) := by
  have hs := runScene_rigCmds controllerSize rootJnt midJnt endJnt env hnd
  unfold NamesOk rigNodeNames at hnd
  simp only [List.pairwise_cons, List.forall_mem_cons] at hnd
  rw [hs]
  constructor <;> simp [parentOf, hnd]

/-- Witness for `fk_parenting_invariant` on an arm. -/
theorem fk_parenting_witness :
    NamesOk "shoulder" "elbow" "wrist"
    ∧ (parentOf (runScene (rigCmds 15 "shoulder" "elbow" "wrist" sampleEnv))
          (fkCtrlGrpNameOf "elbow") = some (fkCtrlNameOf "shoulder")
      ∧ parentOf (runScene (rigCmds 15 "shoulder" "elbow" "wrist" sampleEnv))
          (fkCtrlGrpNameOf "wrist") = some (fkCtrlNameOf "elbow")) :=
  ⟨by decide, fk_parenting_invariant 15 "shoulder" "elbow" "wrist" sampleEnv (by decide)⟩

/-- C6: after every successful build (generated node names being
distinct), the top-level group named from the root joint has as direct
children exactly the four branches — root FK group, IK end-control group,
pole-vector group and blend group — which are therefore siblings, each
parented to the top group and not nested in one another, and the top
group itself sits at world level. -/
theorem top_level_group_children (controllerSize : Nat)
    (rootJnt midJnt endJnt : String) (env : BuildEnv)
    (hnd : NamesOk rootJnt midJnt endJnt) :
    childrenNames (runScene (rigCmds controllerSize rootJnt midJnt endJnt env))
        (topGrpNameOf rootJnt)
      = [fkCtrlGrpNameOf rootJnt, ikCtrlGrpNameOf endJnt,
         ikCtrlGrpNameOf midJnt, ikfkBlendCtrlGrpNameOf rootJnt]
    ∧ parentOf (runScene (rigCmds controllerSize rootJnt midJnt endJnt env))
        (topGrpNameOf rootJnt) = none
    ∧ parentOf (runScene (rigCmds controllerSize rootJnt midJnt endJnt env))
        (fkCtrlGrpNameOf rootJnt) = some (topGrpNameOf rootJnt)
    ∧ parentOf (runScene (rigCmds controllerSize rootJnt midJnt endJnt env))
        (ikCtrlGrpNameOf endJnt) = some (topGrpNameOf rootJnt)
    ∧ parentOf (runScene (rigCmds controllerSize rootJnt midJnt endJnt env))
        (ikCtrlGrpNameOf midJnt) = some (topGrpNameOf rootJnt)
    ∧ parentOf (runScene (rigCmds controllerSize rootJnt midJnt endJnt env))
        (ikfkBlendCtrlGrpNameOf rootJnt) = some (topGrpNameOf rootJnt) := by
  have hs := runScene_rigCmds controllerSize rootJnt midJnt endJnt env hnd
  unfold NamesOk rigNodeNames at hnd
  simp only [List.pairwise_cons, List.forall_mem_cons] at hnd
  rw [hs]
  refine ⟨?_, ?_, ?_, ?_, ?_, ?_⟩ <;> simp [childrenNames, parentOf, hnd]

/-- Witness for `top_level_group_children` on a leg. -/
theorem top_level_group_witness :
    NamesOk "hip" "knee" "ankle"
    ∧ (childrenNames (runScene (rigCmds 15 "hip" "knee" "ankle" sampleEnv))
          (topGrpNameOf "hip")
        = [fkCtrlGrpNameOf "hip", ikCtrlGrpNameOf "ankle",
           ikCtrlGrpNameOf "knee", ikfkBlendCtrlGrpNameOf "hip"]
      ∧ parentOf (runScene (rigCmds 15 "hip" "knee" "ankle" sampleEnv))
          (topGrpNameOf "hip") = none
      ∧ parentOf (runScene (rigCmds 15 "hip" "knee" "ankle" sampleEnv))
          (fkCtrlGrpNameOf "hip") = some (topGrpNameOf "hip")
      ∧ parentOf (runScene (rigCmds 15 "hip" "knee" "ankle" sampleEnv))
          (ikCtrlGrpNameOf "ankle") = some (topGrpNameOf "hip")
      ∧ parentOf (runScene (rigCmds 15 "hip" "knee" "ankle" sampleEnv))
          (ikCtrlGrpNameOf "knee") = some (topGrpNameOf "hip")
      ∧ parentOf (runScene (rigCmds 15 "hip" "knee" "ankle" sampleEnv))
          (ikfkBlendCtrlGrpNameOf "hip") = some (topGrpNameOf "hip")) :=
  ⟨by decide, top_level_group_children 15 "hip" "knee" "ankle" sampleEnv (by decide)⟩

/-- C10: a selection of three or more joints never errors at
input-reading time; the first three selected identifiers become root, mid
and end positionally, and any further selected identifiers are ignored by
the entire build. -/
theorem rigTheLimb_uses_first_three (controllerSize : Nat) (env : BuildEnv)
    (a b c : String) (rest : List String) :
    RigTheLimb controllerSize (a :: b :: c :: rest) env
      = Except.ok (rigCmds controllerSize a b c env)
    ∧ RigTheLimb controllerSize (a :: b :: c :: rest) env
      = RigTheLimb controllerSize [a, b, c] env := by
  constructor <;> simp [RigTheLimb]

/-- C3 counterexample: a build invoked on a two-joint selection fails with
`IndexError` — not with `SelectionError` as claimed — though it does
create zero scene nodes. -/
theorem two_joint_selection_not_selectionError :
    RunRig 15 ["joint1", "joint2"] sampleEnv
      = (([] : Scene), some MayaError.IndexError)
    ∧ MayaError.IndexError ≠ MayaError.SelectionError :=
  ⟨rfl, by decide⟩

/-- C3 amended: a selection with fewer than three joints makes the build
fail with Python's `IndexError` (there is no `SelectionError` validation in
the code) before any adapter call, so zero scene nodes are created; a
selection of three or more never errors at input-reading time. -/
theorem short_selection_fails_before_side_effects (controllerSize : Nat)
    (selection : List String) (env : BuildEnv) (h : selection.length < 3) :
    RunRig controllerSize selection env
      = (([] : Scene), some MayaError.IndexError) := by
  match selection with
  | [] => rfl
  | [_] => rfl
  | [_, _] => rfl
  | _ :: _ :: _ :: _ => simp [List.length] at h; omega

/-- Witness for `short_selection_fails_before_side_effects` at a
one-joint selection. -/
theorem short_selection_fails_witness :
    (["j1"] : List String).length < 3
    ∧ RunRig 15 ["j1"] sampleEnv = (([] : Scene), some MayaError.IndexError) :=
  ⟨by decide,
   short_selection_fails_before_side_effects 15 ["j1"] sampleEnv (by decide)⟩

/-- C4 counterexample: a concrete build binds six live expressions, not
five as claimed. -/
theorem five_expressions_refuted :
    (exprCmds (rigCmds 15 "shoulder" "elbow" "wrist" sampleEnv)).length = 6
    ∧ (exprCmds (rigCmds 15 "shoulder" "elbow" "wrist" sampleEnv)).length ≠ 5 := by
  have h6 : (exprCmds (rigCmds 15 "shoulder" "elbow" "wrist" sampleEnv)).length = 6 := rfl
  exact ⟨h6, by omega⟩

/-- C4 amended: the blend-wiring stage establishes exactly six live
expressions driven by the single blend scalar — FK chain group visibility
`= 1 − blend`, IK end-control group visibility `= blend`, pole-vector
group visibility `= blend`, IK handle blend scalar `= blend`, end joint's
FK driver weight `= 1 − blend`, end joint's IK driver weight `= blend` —
so at blend 0 the rig is purely FK-driven and at blend 1 purely
IK-driven. -/
theorem six_blend_expressions (controllerSize : Nat)
    (rootJnt midJnt endJnt : String) (env : BuildEnv) :
    exprCmds (rigCmds controllerSize rootJnt midJnt endJnt env)
      = [(fkCtrlGrpNameOf rootJnt, "v", BlendFormula.oneMinusBlend),
         (ikCtrlGrpNameOf endJnt, "v", BlendFormula.blendVal),
         (ikCtrlGrpNameOf midJnt, "v", BlendFormula.blendVal),
         (ikHandleNameOf endJnt, "ikBlend", BlendFormula.blendVal),
         (env.endJntOrientConstraint, fkCtrlNameOf endJnt ++ "W0",
           BlendFormula.oneMinusBlend),
         (env.endJntOrientConstraint, ikCtrlNameOf endJnt ++ "W1",
           BlendFormula.blendVal)]
    ∧ evalBlendFormula BlendFormula.oneMinusBlend 0 = 1
    ∧ evalBlendFormula BlendFormula.blendVal 0 = 0
    ∧ evalBlendFormula BlendFormula.oneMinusBlend 1 = 0
    ∧ evalBlendFormula BlendFormula.blendVal 1 = 1 := by
  refine ⟨rfl, ?_, rfl, ?_, rfl⟩
  · simp [evalBlendFormula]
  · simp [evalBlendFormula]

/-- C9: the IK stage creates exactly one IK handle, spanning root→end with
the rotate-plane solver, binds it to the pole-vector locator with a
pole-vector constraint, and sets the handle's visibility to 0 before
returning. -/
theorem ik_stage_handle_constraint_visibility (controllerSize : Nat)
    (rootJnt midJnt endJnt : String) (env : BuildEnv) :
    (CreateIkControl controllerSize rootJnt midJnt endJnt env).cmds.filter isIkHandleCmd
      = [Cmd.ikHandleCmd (ikHandleNameOf endJnt) rootJnt endJnt "ikRPsolver"]
    ∧ (CreateIkControl controllerSize rootJnt midJnt endJnt env).cmds.filter
        isPoleVectorConstraintCmd
      = [Cmd.poleVectorConstraintCmd (ikCtrlNameOf midJnt) (ikHandleNameOf endJnt)]
    ∧ (CreateIkControl controllerSize rootJnt midJnt endJnt env).cmds.filter
        isSetAttrCmd
      = [Cmd.setAttrCmd (ikHandleNameOf endJnt) "v" 0] :=
  ⟨rfl, rfl, rfl⟩

/-- C2: the build binds the end joint's orientation-constraint FK driver
weight to `1 − blend` and its IK driver weight to `blend` (the two live
weight expressions), so for every blend value `b ∈ [0,1]` the two driver
weights are `1 − b` and `b` and always sum to 1. -/
theorem weight_expressions_sum_to_one (controllerSize : Nat)
    (rootJnt midJnt endJnt : String) (env : BuildEnv) (b : ℝ)
    (hb0 : 0 ≤ b) (hb1 : b ≤ 1) :
    Cmd.exprCmd env.endJntOrientConstraint (fkCtrlNameOf endJnt ++ "W0")
        BlendFormula.oneMinusBlend
      ∈ rigCmds controllerSize rootJnt midJnt endJnt env
    ∧ Cmd.exprCmd env.endJntOrientConstraint (ikCtrlNameOf endJnt ++ "W1")
        BlendFormula.blendVal
      ∈ rigCmds controllerSize rootJnt midJnt endJnt env
    ∧ evalBlendFormula BlendFormula.oneMinusBlend b = 1 - b
    ∧ evalBlendFormula BlendFormula.blendVal b = b
    ∧ evalBlendFormula BlendFormula.oneMinusBlend b
        + evalBlendFormula BlendFormula.blendVal b = 1 := by
  refine ⟨?_, ?_, rfl, rfl, by simp [evalBlendFormula]⟩
  · simp [rigCmds, CreateFKForJnt, CreateIkControl]
  · simp [rigCmds, CreateFKForJnt, CreateIkControl]

/-- Witness for `weight_expressions_sum_to_one` at `b = 0`. -/
theorem weight_expressions_witness :
    (0 : ℝ) ≤ 0 ∧ (0 : ℝ) ≤ 1
    ∧ (Cmd.exprCmd sampleEnv.endJntOrientConstraint (fkCtrlNameOf "wrist" ++ "W0")
          BlendFormula.oneMinusBlend
        ∈ rigCmds 15 "shoulder" "elbow" "wrist" sampleEnv
      ∧ Cmd.exprCmd sampleEnv.endJntOrientConstraint (ikCtrlNameOf "wrist" ++ "W1")
          BlendFormula.blendVal
        ∈ rigCmds 15 "shoulder" "elbow" "wrist" sampleEnv
      ∧ evalBlendFormula BlendFormula.oneMinusBlend 0 = 1 - 0
      ∧ evalBlendFormula BlendFormula.blendVal 0 = 0
      ∧ evalBlendFormula BlendFormula.oneMinusBlend 0
          + evalBlendFormula BlendFormula.blendVal 0 = 1) :=
  ⟨le_refl 0, zero_le_one,
   weight_expressions_sum_to_one 15 "shoulder" "elbow" "wrist" sampleEnv 0
     (le_refl 0) zero_le_one⟩

/-- C7: the blend control's group is moved to
`rootJntPos + MVector(rootJntPos.x, 0, 0)`, an offset built from the root
joint's own x component, so its final world position is
`(2*p.x, p.y, p.z)`; the build's move command carries exactly this
position. -/
theorem blend_control_position (controllerSize : Nat)
    (rootJnt midJnt endJnt : String) (env : BuildEnv) :
    ikfkBlendCtrlPos env.rootJntPos
      = ⟨2 * env.rootJntPos.x, env.rootJntPos.y, env.rootJntPos.z⟩
    ∧ Cmd.move (ikfkBlendCtrlPos env.rootJntPos).x
        (ikfkBlendCtrlPos env.rootJntPos).y (ikfkBlendCtrlPos env.rootJntPos).z
        (ikfkBlendCtrlGrpNameOf rootJnt)
      ∈ rigCmds controllerSize rootJnt midJnt endJnt env := by
  constructor
  · ext <;> simp [ikfkBlendCtrlPos] <;> ring
  · simp [rigCmds, CreateFKForJnt, CreateIkControl]

end LimbRig
